import Mathlib

/-!
Verification of the live status renderer in
`src/packages/snowpack/src/commands/paint.ts`.

Shallow embedding: the closed-over dashboard variables of `paint`, the event
handlers installed on the message bus, the workers section of `repaint`, and
the `getPort` negotiation are translated into executable Lean definitions.
External collaborators (`detect-port`, `util.format`, `path.relative`, kleur
color decoration, the readline answer) appear as explicit inputs, following
the interface boundary of the design document. Theorems below settle the
specification claims about these definitions.
-/

/-- A worker's phase: a human-readable label plus a color tag,
for example `("RUNNING", "yellow")`. -/
abbrev Phase := String × String

/-- Per-worker dashboard record (`interface WorkerState` in paint.ts).
An `Error` value is carried opaquely; we model it by its message string. -/
structure WorkerState where
  done : Bool
  state : Option Phase
  error : Option String
  output : String
deriving DecidableEq, Repr

/-- `const WORKER_BASE_STATE = {done: false, error: null, state: null, output: ''}`. -/
def WORKER_BASE_STATE : WorkerState :=
  { done := false, state := none, error := none, output := "" }

/-- JavaScript property read `allWorkerStates[id]` on the insertion-ordered
string-keyed object, modelled as an association list in key insertion order. -/
def lookupWorker : List (String × WorkerState) → String → Option WorkerState
  | [], _ => none
  | (k, v) :: rest, id => if k = id then some v else lookupWorker rest id

/-- JavaScript assignment `allWorkerStates[id] = v`: overwrites in place when
the key exists (keeping its position in insertion order), otherwise appends
the key at the end. -/
def setWorker : List (String × WorkerState) → String → WorkerState → List (String × WorkerState)
  | [], id, v => [(id, v)]
  | (k, w) :: rest, id, v =>
      if k = id then (k, v) :: rest else (k, w) :: setWorker rest id v

/-- `setupWorker(id)` from paint.ts: create the zero state when absent. -/
def setupWorker (ws : List (String × WorkerState)) (id : String) :
    List (String × WorkerState) :=
  match lookupWorker ws id with
  | some _ => ws
  | none => setWorker ws id WORKER_BASE_STATE

/-- Property write `allWorkerStates[id].f = v`: returns `none` (a thrown
TypeError in JavaScript, reading a property of `undefined`) when
`allWorkerStates[id]` does not exist. -/
def modifyWorker (ws : List (String × WorkerState)) (id : String)
    (f : WorkerState → WorkerState) : Option (List (String × WorkerState)) :=
  match lookupWorker ws id with
  | some w => some (setWorker ws id (f w))
  | none => none

/-- Payload `data` of a MISSING_WEB_MODULE event. -/
structure MissingData where
  spec : String
  pkgName : String
deriving DecidableEq, Repr

/-- `missingWebModule: null | {id, spec, pkgName}` in paint.ts. -/
structure MissingWebModule where
  id : String
  spec : String
  pkgName : String
deriving DecidableEq, Repr

/-- Payload of a SERVER_START event. -/
structure ServerInfo where
  startTimeMs : Nat
  hostname : String
  port : Nat
  protocol : String
  ips : List String
deriving DecidableEq, Repr

/-- The closed-over mutable dashboard variables of `paint` in paint.ts.
`port`, `hostname` and `startTimeMs` are declared without initializers in the
source (undefined until SERVER_START), hence `Option`; `protocol` starts at
the empty string. `allFileBuilds` is the insertion-ordered `Set<string>`. -/
structure DashState where
  port : Option Nat
  hostname : Option String
  protocol : String
  startTimeMs : Option Nat
  ips : List String
  consoleOutput : String
  installOutput : String
  isInstalling : Bool
  missingWebModule : Option MissingWebModule
  allWorkerStates : List (String × WorkerState)
  allFileBuilds : List String
deriving DecidableEq, Repr

/-- Bus events consumed by paint.ts. `console` carries the already formatted
message (`util.format.apply(util, args)` is an external collaborator) and
`buildFile` carries the already relativized path (`path.relative(cwd, id)`
is likewise external). -/
inductive Event where
  | buildFile (relPath : String) (isBuilding : Bool)
  | workerStart (id : String) (state : Option Phase)
  | workerMsg (id : String) (msg : String)
  | workerUpdate (id : String) (state : Option Phase)
  | workerComplete (id : String) (error : Option String)
  | workerReset (id : String)
  | console (level : String) (msg : String)
  | installing
  | installComplete
  | missingWebModule (id : String) (data : Option MissingData)
  | serverStart (info : ServerInfo)
deriving DecidableEq, Repr

/-- JavaScript `a || b` on `null | Error` values: an Error object is truthy,
`null` and `undefined` are falsy. Models line 195 of paint.ts. -/
def jsOr (a b : Option String) : Option String :=
  match a with
  | some x => some x
  | none => b

/-- The WORKER_UPDATE guard `typeof state !== undefined` from paint.ts line
186: `typeof` returns a string, and a string is never strictly equal to the
value `undefined`, so the guard holds for every payload, present or absent. -/
def typeofStateNeUndefined (_state : Option Phase) : Bool := true

/-- `msg.startsWith(p)`. -/
def strStartsWith (msg p : String) : Bool := List.isPrefixOf p.data msg.data

/-- `Set.add` on the insertion-ordered `allFileBuilds` set. -/
def setAdd (l : List String) (x : String) : List String :=
  if x ∈ l then l else l ++ [x]

/-- `Set.delete` on `allFileBuilds`. -/
def setRemove (l : List String) (x : String) : List String := List.erase l x

/-- The MISSING_WEB_MODULE handler body (paint.ts lines 227-239): two
sequential conditionals, the second reading the value possibly written by
the first. -/
def missingHandler (id : String) (data : Option MissingData)
    (m : Option MissingWebModule) : Option MissingWebModule :=
  let m1 : Option MissingWebModule :=
    match m, data with
    | none, some d => some { id := id, spec := d.spec, pkgName := d.pkgName }
    | _, _ => m
  match m1 with
  | some mw =>
      if mw.id = id then
        match data with
        | none => none
        | some d => some { id := id, spec := d.spec, pkgName := d.pkgName }
      else m1
  | none => m1

/-- The one kind of deferred task in paint.ts: the INSTALL_COMPLETE handler's
`setTimeout` callback. -/
inductive Timer where
  | installCompleteClear
deriving DecidableEq, Repr

/-- The fixed delay passed to `setTimeout` in the INSTALL_COMPLETE handler. -/
def INSTALL_COMPLETE_DELAY_MS : Nat := 2000

/-- Timers scheduled by a handler: only INSTALL_COMPLETE schedules one. -/
def scheduled : Event → List (Nat × Timer)
  | Event.installComplete => [(INSTALL_COMPLETE_DELAY_MS, Timer.installCompleteClear)]
  | _ => []

/-- Firing the INSTALL_COMPLETE callback (paint.ts lines 219-225): clears the
missing-module prompt, the installing flag, and both output transcripts,
whatever the state holds at that moment. -/
def fireTimer : Timer → DashState → DashState
  | Timer.installCompleteClear, s =>
      { s with
          missingWebModule := none
          isInstalling := false
          installOutput := ""
          consoleOutput := "" }

/-- Lift a possibly-faulting update of the workers mapping to the state. -/
def withWorkers (s : DashState) : Option (List (String × WorkerState)) → Option DashState
  | some ws => some { s with allWorkerStates := ws }
  | none => none

/-- One bus event handler step from paint.ts. `none` models a thrown
TypeError. The repaint performed at the end of every handler is the pure
renderer and does not change the state. -/
def applyEvent (e : Event) (s : DashState) : Option DashState :=
  match e with
  | Event.buildFile relPath isBuilding =>
      some { s with allFileBuilds :=
        if isBuilding then setAdd s.allFileBuilds relPath
        else setRemove s.allFileBuilds relPath }
  | Event.workerStart id st =>
      withWorkers s (modifyWorker (setupWorker s.allWorkerStates id) id
        (fun w => { w with state := some (st.getD ("RUNNING", "yellow")) }))
  | Event.workerMsg id m =>
      withWorkers s (modifyWorker (setupWorker s.allWorkerStates id) id
        (fun w => { w with output := w.output ++ m }))
  | Event.workerUpdate id st =>
      if typeofStateNeUndefined st then
        withWorkers s (modifyWorker (setupWorker s.allWorkerStates id) id
          (fun w => { w with state := st }))
      else some s
  | Event.workerComplete id er =>
      withWorkers s (modifyWorker s.allWorkerStates id
        (fun w => { w with
            state := some ("DONE", "green")
            done := true
            error := jsOr w.error er }))
  | Event.workerReset id =>
      some { s with allWorkerStates := setWorker s.allWorkerStates id WORKER_BASE_STATE }
  | Event.console level msg =>
      if s.isInstalling then
        if strStartsWith msg "[404] " then some s
        else some { s with installOutput := s.installOutput ++ msg }
      else
        some { s with consoleOutput :=
          s.consoleOutput ++ "[" ++ level ++ "] " ++ msg ++ "\n" }
  | Event.installing => some { s with isInstalling := true, installOutput := "" }
  | Event.installComplete => some s
  | Event.missingWebModule id data =>
      some { s with missingWebModule := missingHandler id data s.missingWebModule }
  | Event.serverStart info =>
      some { s with
          startTimeMs := some info.startTimeMs
          hostname := some info.hostname
          port := some info.port
          protocol := info.protocol
          ips := info.ips }

/-- Process a list of bus events in order, propagating a handler fault. -/
def processEvents : List Event → DashState → Option DashState
  | [], s => some s
  | e :: es, s =>
      match applyEvent e s with
      | some s1 => processEvents es s1
      | none => none

/-- The record of worker `name` after processing `es` from `s` (`none` when a
handler faulted or the worker is absent at the end). -/
def workerAfter (es : List Event) (s : DashState) (name : String) :
    Option WorkerState :=
  match processEvents es s with
  | some s1 => lookupWorker s1.allWorkerStates name
  | none => none

/-- Initial dashboard state built by `paint(bus, scripts, devMode)` (paint.ts
lines 66-80): every name in `scripts` is eagerly given the zero WorkerState.
The `devMode` keypress listener does not touch this state. -/
def paintInit (scripts : List String) : DashState :=
  { port := none
    hostname := none
    protocol := ""
    startTimeMs := none
    ips := []
    consoleOutput := ""
    installOutput := ""
    isInstalling := false
    missingWebModule := none
    allWorkerStates := scripts.foldl (fun ws sc => setWorker ws sc WORKER_BASE_STATE) []
    allFileBuilds := [] }

/-- Which worker id an event references through its `id` field, if any. -/
def refsWorker : Event → Option String
  | Event.workerStart id _ => some id
  | Event.workerMsg id _ => some id
  | Event.workerUpdate id _ => some id
  | Event.workerComplete id _ => some id
  | Event.workerReset id => some id
  | _ => none

/-- Keys of the workers mapping in iteration (insertion) order. -/
def keysOf (s : DashState) : List String := s.allWorkerStates.map Prod.fst

/-- The two color functions that can decorate a worker header in `repaint`. -/
inductive ColorFn where
  | red
  | reset
deriving DecidableEq, Repr

/-- `Array.isArray(workerState.error)` from paint.ts line 102, where the field
is declared `error: null | Error`: neither `null` nor an `Error` object is a
JavaScript array, so the test is `false` for every value the field can hold. -/
def isArrayError (_e : Option String) : Bool := false

/-- The color function chosen for a worker header in `repaint`:
`Array.isArray(workerState.error) ? colors.red : colors.reset`. -/
def workerHeaderColor (w : WorkerState) : ColorFn :=
  if isArrayError w.error then ColorFn.red else ColorFn.reset

/-- The Workers section of `repaint` (paint.ts lines 100-107): one
(name, header color) entry per worker, in insertion order, restricted to
workers with non-empty output. -/
def workersSections (ws : List (String × WorkerState)) : List (String × ColorFn) :=
  ws.filterMap (fun p => if p.2.output = "" then none else some (p.1, workerHeaderColor p.2))

/-- ASCII lowercasing, modelling the `i` flag of the answer regex. -/
def strToLower (s : String) : String := String.mk (s.data.map Char.toLower)

/-- `/^no?$/i.test(answer)`: an anchored, case-insensitive match of exactly
`n` or `no`. -/
def regexNoTest (answer : String) : Bool :=
  if strToLower answer = "n" then true
  else if strToLower answer = "no" then true
  else false

/-- What an unrecoverable port conflict produces: the PortUnavailable failure
of the design document, carrying both ports, the process exit status, and the
message printed to standard error. -/
structure PortFailure where
  requested : Nat
  available : Nat
  exitCode : Nat
  stderrMsg : String
deriving DecidableEq, Repr

/-- Result of the port negotiation. -/
inductive PortOutcome where
  | ok (port : Nat)
  | fatal (f : PortFailure)
deriving DecidableEq, Repr

/-- The fatal message printed to standard error (kleur color decoration, an
external text styling collaborator, stripped). -/
def portUnavailableMsg (defaultPort : Nat) : String :=
  "✘ Port " ++ toString defaultPort ++ " not available. Use --port to specify a different port."

/-- `getPort(defaultPort)` from paint.ts lines 14-47, with its external
collaborators made explicit: `bestAvailablePort` is what `detect-port`
returned, `isTTY` is `process.stdout.isTTY`, and `answer` is the line the
user typed at the readline prompt. `fatal` models the `console.error` calls
followed by `process.exit(1)`. -/
def getPort (defaultPort bestAvailablePort : Nat) (isTTY : Bool)
    (answer : String) : PortOutcome :=
  if defaultPort = bestAvailablePort then PortOutcome.ok bestAvailablePort
  else
    let useNextPort : Bool := if isTTY then !regexNoTest answer else false
    if useNextPort then PortOutcome.ok bestAvailablePort
    else PortOutcome.fatal
      { requested := defaultPort
        available := bestAvailablePort
        exitCode := 1
        stderrMsg := portUnavailableMsg defaultPort }

/-- Texts of the worker-message events in `es`, in event order. -/
def msgTexts : List Event → List String
  | [] => []
  | Event.workerMsg _ t :: es => t :: msgTexts es
  | _ :: es => msgTexts es

/-- Whether an event is a worker-reset. -/
def isResetEvent : Event → Bool
  | Event.workerReset _ => true
  | _ => false

/-- The suffix of `es` strictly after its last worker-reset event, when a
reset occurs at all. -/
def sinceLastReset : List Event → Option (List Event)
  | [] => none
  | e :: es =>
      match sinceLastReset es with
      | some suffix => some suffix
      | none => if isResetEvent e then some es else none

/-- Concatenation of a list of strings, in order. -/
def concatTexts : List String → String
  | [] => ""
  | t :: ts => t ++ concatTexts ts

/-- Specification-side description of a worker's accumulated output: the
concatenation, in event order, of all worker-message texts since the most
recent reset, or the initial output followed by all texts when no reset
occurred. -/
def outputSpec (init : String) (es : List Event) : String :=
  match sinceLastReset es with
  | some suffix => concatTexts (msgTexts suffix)
  | none => init ++ concatTexts (msgTexts es)

/-- Effect of one worker event on the referenced worker's record, as paint.ts
applies it to an existing entry. The id components are irrelevant here:
callers apply this only to events referencing the tracked worker. -/
def workerStep (e : Event) (w : WorkerState) : WorkerState :=
  match e with
  | Event.workerStart _ st => { w with state := some (st.getD ("RUNNING", "yellow")) }
  | Event.workerMsg _ t => { w with output := w.output ++ t }
  | Event.workerUpdate _ st => { w with state := st }
  | Event.workerComplete _ er =>
      { w with
          state := some ("DONE", "green")
          done := true
          error := jsOr w.error er }
  | Event.workerReset _ => WORKER_BASE_STATE
  | _ => w

/-- Effect of one worker event on the tracked worker's output alone. -/
def stepOut (acc : String) (e : Event) : String :=
  match e with
  | Event.workerMsg _ t => acc ++ t
  | Event.workerReset _ => ""
  | _ => acc

/-- A dashboard state in installing mode, used to instantiate theorems. -/
def installingState : DashState := { paintInit [] with isInstalling := true }

/-- A dashboard state with an active missing-module prompt for `a.js`. -/
def promptState : DashState :=
  { paintInit [] with
      missingWebModule := some { id := "a.js", spec := "react", pkgName := "react" } }

/-- A dashboard state whose worker `w` already carries an error. -/
def errorWorkerState : DashState :=
  { paintInit [] with
      allWorkerStates := [("w", { WORKER_BASE_STATE with error := some "E0" })] }

/-- A dashboard state with two workers, the second in a thoroughly non-zero
condition, used to instantiate reset and ordering theorems. -/
def dirtyState : DashState :=
  { paintInit [] with
      allWorkerStates :=
        [("a", WORKER_BASE_STATE),
         ("w", { done := true, state := some ("DONE", "green"), error := some "E",
                 output := "xyz" })] }

/-- A one-worker dashboard state in a non-zero condition. -/
def dirtyResetState : DashState :=
  { paintInit [] with
      allWorkerStates :=
        [("w", { done := true, state := some ("DONE", "green"), error := some "E",
                 output := "zzz" })] }

theorem lookupWorker_setWorker (ws : List (String × WorkerState)) (id name : String)
    (v : WorkerState) :
    lookupWorker (setWorker ws id v) name =
      if id = name then some v else lookupWorker ws name := by
  induction ws with
  | nil => simp [setWorker, lookupWorker]
  | cons kv rest ih =>
      obtain ⟨k, w⟩ := kv
      by_cases hk : k = id
      · subst hk
        by_cases hn : k = name <;> simp [setWorker, lookupWorker, hn]
      · by_cases hn : k = name
        · have hni : ¬ name = id := fun h => hk (hn.trans h)
          have hidn : ¬ id = name := fun h => hni h.symm
          simp [setWorker, lookupWorker, hk, hn, hidn, hni]
        · simp [setWorker, lookupWorker, hk, hn, ih]

theorem lookupWorker_setupWorker (ws : List (String × WorkerState)) (id name : String) :
    lookupWorker (setupWorker ws id) name =
      if id = name then some ((lookupWorker ws id).getD WORKER_BASE_STATE)
      else lookupWorker ws name := by
  unfold setupWorker
  cases h : lookupWorker ws id with
  | some w =>
      by_cases hn : id = name
      · subst hn; simp [h]
      · simp [hn]
  | none => simp [lookupWorker_setWorker, h]

theorem map_fst_setWorker (ws : List (String × WorkerState)) (id : String)
    (v : WorkerState) (h : lookupWorker ws id ≠ none) :
    (setWorker ws id v).map Prod.fst = ws.map Prod.fst := by
  induction ws with
  | nil => simp [lookupWorker] at h
  | cons kv rest ih =>
      obtain ⟨k, w⟩ := kv
      by_cases hk : k = id
      · subst hk; simp [setWorker]
      · have h' : lookupWorker rest id ≠ none := by
          simpa [lookupWorker, hk] using h
        simp [setWorker, hk, ih h']

theorem lookupWorker_foldl_setWorker (scripts : List String) (name : String) :
    ∀ acc, name ∉ scripts → lookupWorker acc name = none →
      lookupWorker (scripts.foldl (fun ws sc => setWorker ws sc WORKER_BASE_STATE) acc) name
        = none := by
  induction scripts with
  | nil => intro acc _ hacc; simpa using hacc
  | cons sc rest ih =>
      intro acc hmem hacc
      have h1 : name ∉ rest := fun hh => hmem (List.mem_cons_of_mem _ hh)
      have h2 : ¬ sc = name := fun hh => hmem (hh ▸ List.mem_cons_self _ _)
      simp only [List.foldl_cons]
      exact ih _ h1 (by simp [lookupWorker_setWorker, h2, hacc])

theorem lookupWorker_paintInit (scripts : List String) (name : String)
    (h : name ∉ scripts) :
    lookupWorker (paintInit scripts).allWorkerStates name = none := by
  exact lookupWorker_foldl_setWorker scripts name [] h rfl

theorem str_empty_append (s : String) : "" ++ s = s := by
  cases s
  rfl

theorem str_append_empty (s : String) : s ++ "" = s := by
  cases s with
  | mk d => show String.mk (d ++ []) = String.mk d; rw [List.append_nil]

theorem str_append_assoc (a b c : String) : a ++ b ++ c = a ++ (b ++ c) := by
  cases a with
  | mk da =>
      cases b with
      | mk db =>
          cases c with
          | mk dc => show String.mk (da ++ db ++ dc) = String.mk (da ++ (db ++ dc))
                     rw [List.append_assoc]

theorem workerStep_output (e : Event) (w : WorkerState) :
    (workerStep e w).output = stepOut w.output e := by
  cases e <;> rfl

theorem outputSpec_nil (init : String) : outputSpec init [] = init := by
  simp [outputSpec, sinceLastReset, msgTexts, concatTexts, str_append_empty]

theorem outputSpec_cons (init : String) (e : Event) (es : List Event) :
    outputSpec init (e :: es) = outputSpec (stepOut init e) es := by
  cases h : sinceLastReset es with
  | some suffix => simp [outputSpec, sinceLastReset, h]
  | none =>
      cases e with
      | workerReset id =>
          simp [outputSpec, sinceLastReset, h, isResetEvent, stepOut, str_empty_append]
      | workerMsg id t =>
          simp [outputSpec, sinceLastReset, h, isResetEvent, stepOut, msgTexts,
            concatTexts, str_append_assoc]
      | buildFile a b =>
          simp [outputSpec, sinceLastReset, h, isResetEvent, stepOut, msgTexts]
      | workerStart a b =>
          simp [outputSpec, sinceLastReset, h, isResetEvent, stepOut, msgTexts]
      | workerUpdate a b =>
          simp [outputSpec, sinceLastReset, h, isResetEvent, stepOut, msgTexts]
      | workerComplete a b =>
          simp [outputSpec, sinceLastReset, h, isResetEvent, stepOut, msgTexts]
      | console a b =>
          simp [outputSpec, sinceLastReset, h, isResetEvent, stepOut, msgTexts]
      | installing =>
          simp [outputSpec, sinceLastReset, h, isResetEvent, stepOut, msgTexts]
      | installComplete =>
          simp [outputSpec, sinceLastReset, h, isResetEvent, stepOut, msgTexts]
      | missingWebModule a b =>
          simp [outputSpec, sinceLastReset, h, isResetEvent, stepOut, msgTexts]
      | serverStart a =>
          simp [outputSpec, sinceLastReset, h, isResetEvent, stepOut, msgTexts]

theorem applyEvent_refs (e : Event) (name : String) (s : DashState) (w : WorkerState)
    (hr : refsWorker e = some name)
    (hw : lookupWorker s.allWorkerStates name = some w) :
    applyEvent e s =
      some { s with allWorkerStates := setWorker s.allWorkerStates name (workerStep e w) } := by
  cases e with
  | workerStart id st =>
      simp only [refsWorker, Option.some.injEq] at hr
      subst hr
      simp [applyEvent, setupWorker, hw, modifyWorker, withWorkers, workerStep]
  | workerMsg id m =>
      simp only [refsWorker, Option.some.injEq] at hr
      subst hr
      simp [applyEvent, setupWorker, hw, modifyWorker, withWorkers, workerStep]
  | workerUpdate id st =>
      simp only [refsWorker, Option.some.injEq] at hr
      subst hr
      simp [applyEvent, typeofStateNeUndefined, setupWorker, hw, modifyWorker,
        withWorkers, workerStep]
  | workerComplete id er =>
      simp only [refsWorker, Option.some.injEq] at hr
      subst hr
      simp [applyEvent, modifyWorker, hw, withWorkers, workerStep]
  | workerReset id =>
      simp only [refsWorker, Option.some.injEq] at hr
      subst hr
      simp [applyEvent, workerStep]
  | buildFile a b => simp [refsWorker] at hr
  | console a b => simp [refsWorker] at hr
  | installing => simp [refsWorker] at hr
  | installComplete => simp [refsWorker] at hr
  | missingWebModule a b => simp [refsWorker] at hr
  | serverStart a => simp [refsWorker] at hr

theorem lookup_setWorker_isSome (ws : List (String × WorkerState)) (id : String)
    (v : WorkerState) : ∃ u, lookupWorker (setWorker ws id v) id = some u :=
  ⟨v, by simp [lookupWorker_setWorker]⟩

theorem lookupWorker_applyEvent (e : Event) (s s1 : DashState) (name : String)
    (h : applyEvent e s = some s1) :
    lookupWorker s1.allWorkerStates name = lookupWorker s.allWorkerStates name
    ∨ (refsWorker e = some name ∧ ∃ v, lookupWorker s1.allWorkerStates name = some v) := by
  cases e with
  | buildFile a b =>
      simp only [applyEvent, Option.some.injEq] at h
      subst h; left; rfl
  | installing =>
      simp only [applyEvent, Option.some.injEq] at h
      subst h; left; rfl
  | installComplete =>
      simp only [applyEvent, Option.some.injEq] at h
      subst h; left; rfl
  | missingWebModule a b =>
      simp only [applyEvent, Option.some.injEq] at h
      subst h; left; rfl
  | serverStart a =>
      simp only [applyEvent, Option.some.injEq] at h
      subst h; left; rfl
  | console a b =>
      simp only [applyEvent] at h
      split at h
      · split at h
        · simp only [Option.some.injEq] at h; subst h; left; rfl
        · simp only [Option.some.injEq] at h; subst h; left; rfl
      · simp only [Option.some.injEq] at h; subst h; left; rfl
  | workerStart id st =>
      simp only [applyEvent] at h
      cases hl : lookupWorker (setupWorker s.allWorkerStates id) id with
      | none =>
          rw [lookupWorker_setupWorker] at hl
          simp at hl
      | some w0 =>
          simp only [modifyWorker, hl, withWorkers, Option.some.injEq] at h
          subst h
          by_cases hin : id = name
          · subst hin
            right
            exact ⟨rfl, lookup_setWorker_isSome _ _ _⟩
          · left
            simp [lookupWorker_setWorker, hin, lookupWorker_setupWorker]
  | workerMsg id m =>
      simp only [applyEvent] at h
      cases hl : lookupWorker (setupWorker s.allWorkerStates id) id with
      | none =>
          rw [lookupWorker_setupWorker] at hl
          simp at hl
      | some w0 =>
          simp only [modifyWorker, hl, withWorkers, Option.some.injEq] at h
          subst h
          by_cases hin : id = name
          · subst hin
            right
            exact ⟨rfl, lookup_setWorker_isSome _ _ _⟩
          · left
            simp [lookupWorker_setWorker, hin, lookupWorker_setupWorker]
  | workerUpdate id st =>
      simp only [applyEvent, typeofStateNeUndefined, if_true] at h
      cases hl : lookupWorker (setupWorker s.allWorkerStates id) id with
      | none =>
          rw [lookupWorker_setupWorker] at hl
          simp at hl
      | some w0 =>
          simp only [modifyWorker, hl, withWorkers, Option.some.injEq] at h
          subst h
          by_cases hin : id = name
          · subst hin
            right
            exact ⟨rfl, lookup_setWorker_isSome _ _ _⟩
          · left
            simp [lookupWorker_setWorker, hin, lookupWorker_setupWorker]
  | workerComplete id er =>
      simp only [applyEvent] at h
      cases hl : lookupWorker s.allWorkerStates id with
      | none => simp [modifyWorker, hl, withWorkers] at h
      | some w0 =>
          simp only [modifyWorker, hl, withWorkers, Option.some.injEq] at h
          subst h
          by_cases hin : id = name
          · subst hin
            right
            exact ⟨rfl, lookup_setWorker_isSome _ _ _⟩
          · left
            simp [lookupWorker_setWorker, hin]
  | workerReset id =>
      simp only [applyEvent, Option.some.injEq] at h
      subst h
      by_cases hin : id = name
      · subst hin
        right
        exact ⟨rfl, lookup_setWorker_isSome _ _ _⟩
      · left
        simp [lookupWorker_setWorker, hin]

theorem c10_run (es : List Event) :
    ∀ (s : DashState) (w : WorkerState) (name : String),
      (∀ e ∈ es, refsWorker e = some name) →
      lookupWorker s.allWorkerStates name = some w →
      Option.map WorkerState.output (workerAfter es s name) = some (outputSpec w.output es) := by
  induction es with
  | nil =>
      intro s w name _ hw
      simp [workerAfter, processEvents, hw, outputSpec_nil]
  | cons e es ih =>
      intro s w name hall hw
      have hr : refsWorker e = some name := hall e (List.mem_cons_self e es)
      have happ := applyEvent_refs e name s w hr hw
      have hw1 : lookupWorker
          (setWorker s.allWorkerStates name (workerStep e w)) name = some (workerStep e w) := by
        simp [lookupWorker_setWorker]
      have hrec := ih { s with allWorkerStates := setWorker s.allWorkerStates name (workerStep e w) }
        (workerStep e w) name (fun e2 he2 => hall e2 (List.mem_cons_of_mem e he2)) hw1
      have hwa : workerAfter (e :: es) s name =
          workerAfter es
            { s with allWorkerStates := setWorker s.allWorkerStates name (workerStep e w) } name := by
        simp [workerAfter, processEvents, happ]
      rw [hwa, hrec, workerStep_output, ← outputSpec_cons]

/-- Claim C9: the INSTALL_COMPLETE handler changes nothing immediately and
schedules a single callback with a fixed 2000ms delay; when that callback
fires it sets `isInstalling` to false and clears `installOutput`,
`consoleOutput` and the missing-module prompt, regardless of the state at
that time. -/
theorem c9_install_complete_clear (s : DashState) :
    applyEvent Event.installComplete s = some s
  ∧ scheduled Event.installComplete = [(2000, Timer.installCompleteClear)]
  ∧ fireTimer Timer.installCompleteClear s
      = { s with missingWebModule := none, isInstalling := false, installOutput := "", consoleOutput := "" } :=
  ⟨rfl, rfl, rfl⟩

/-- Claim C6: during installation a console-log whose formatted message starts
with the literal prefix `[404] ` changes nothing; any other message is
appended to `installOutput` (console transcript untouched); outside
installation the bracketed level, the message and a newline are appended to
`consoleOutput` (install transcript untouched). -/
theorem c6_console_log_routing (s t : DashState) (level m1 m2 m3 : String)
    (hs : s.isInstalling = true) (ht : t.isInstalling = false)
    (h1 : strStartsWith m1 "[404] " = true) (h2 : strStartsWith m2 "[404] " = false) :
    applyEvent (Event.console level m1) s = some s
  ∧ applyEvent (Event.console level m2) s
      = some { s with installOutput := s.installOutput ++ m2 }
  ∧ applyEvent (Event.console level m3) t
      = some { t with consoleOutput := t.consoleOutput ++ "[" ++ level ++ "] " ++ m3 ++ "\n" } := by
  refine ⟨?_, ?_, ?_⟩ <;> simp [applyEvent, hs, ht, h1, h2]

/-- Witness for C6 at concrete inputs: the 404-prefixed message leaves the
installing state untouched, another message lands in `installOutput`, and the
same handler outside installation appends to `consoleOutput`. -/
theorem c6_console_log_routing_witness :
    applyEvent (Event.console "error" "[404] missing.js") installingState = some installingState
  ∧ applyEvent (Event.console "error" "boom") installingState
      = some { installingState with installOutput := installingState.installOutput ++ "boom" }
  ∧ applyEvent (Event.console "error" "later") (paintInit [])
      = some { paintInit [] with
          consoleOutput := (paintInit []).consoleOutput ++ "[" ++ "error" ++ "] " ++ "later" ++ "\n" } :=
  c6_console_log_routing installingState (paintInit []) "error" "[404] missing.js" "boom"
    "later" (by decide) (by decide) (by decide) (by decide)

/-- Claim C7: with the probe returning an alternate port and an interactive
session, negotiation returns the alternate port exactly when the answer does
not match `^no?$` case-insensitively (the matches being precisely the
lowercase-to `n` and `no` answers); a matching answer, or a non-interactive
session, yields the PortUnavailable failure with exit status 1 and the fatal
standard-error message. -/
theorem c7_port_negotiation (d b : Nat) (ans : String) (hne : ¬ d = b) :
    (getPort d b true ans = PortOutcome.ok b ↔ regexNoTest ans = false)
  ∧ (regexNoTest ans = true →
      getPort d b true ans = PortOutcome.fatal ⟨d, b, 1, portUnavailableMsg d⟩)
  ∧ getPort d b false ans = PortOutcome.fatal ⟨d, b, 1, portUnavailableMsg d⟩
  ∧ (regexNoTest ans = true ↔ (strToLower ans = "n" ∨ strToLower ans = "no")) := by
  refine ⟨?_, ?_, ?_, ?_⟩
  · cases hreg : regexNoTest ans <;> simp [getPort, hne, hreg]
  · intro hreg
    simp [getPort, hne, hreg]
  · simp [getPort, hne]
  · unfold regexNoTest
    by_cases hc1 : strToLower ans = "n"
    · simp [hc1]
    · by_cases hc2 : strToLower ans = "no"
      · simp [hc1, hc2]
      · simp [hc1, hc2]

/-- Witness for C7 at the spec's scenario, defaulting 3000 against available
3001 with the mixed-case declining answer `nO`. -/
theorem c7_port_negotiation_witness :
    (getPort 3000 3001 true "nO" = PortOutcome.ok 3001 ↔ regexNoTest "nO" = false)
  ∧ (regexNoTest "nO" = true →
      getPort 3000 3001 true "nO" = PortOutcome.fatal ⟨3000, 3001, 1, portUnavailableMsg 3000⟩)
  ∧ getPort 3000 3001 false "nO" = PortOutcome.fatal ⟨3000, 3001, 1, portUnavailableMsg 3000⟩
  ∧ (regexNoTest "nO" = true ↔ (strToLower "nO" = "n" ∨ strToLower "nO" = "no")) :=
  c7_port_negotiation 3000 3001 "nO" (by decide)

/-- Claim C5: the missing-module slot holds at most one prompt by
construction; installing a prompt for `a` and then receiving a data-less
event for `a` clears it; an event for a different id `b` while `a`'s prompt
is active leaves `a`'s prompt untouched; an event with data while no prompt
is active installs the prompt built from (id, data). -/
theorem c5_missing_module_prompt (s t : DashState) (a b id : String)
    (d1 d2 d : MissingData) (mw : MissingWebModule)
    (hab : ¬ a = b) (hs : s.missingWebModule = none)
    (ht : t.missingWebModule = some mw) (hmw : mw.id = a) :
    Option.map DashState.missingWebModule
      (processEvents [Event.missingWebModule a (some d1), Event.missingWebModule a none] s)
      = some none
  ∧ Option.map DashState.missingWebModule
      (applyEvent (Event.missingWebModule b (some d2)) t) = some (some mw)
  ∧ Option.map DashState.missingWebModule
      (applyEvent (Event.missingWebModule id (some d)) s)
      = some (some { id := id, spec := d.spec, pkgName := d.pkgName }) := by
  refine ⟨?_, ?_, ?_⟩
  · simp [processEvents, applyEvent, missingHandler, hs]
  · have hnb : ¬ mw.id = b := by rw [hmw]; exact hab
    simp [applyEvent, missingHandler, ht, hnb]
  · simp [applyEvent, missingHandler, hs]

/-- Witness for C5 at concrete prompts. -/
theorem c5_missing_module_prompt_witness :
    Option.map DashState.missingWebModule
      (processEvents [Event.missingWebModule "a.js" (some { spec := "react", pkgName := "react" }),
        Event.missingWebModule "a.js" none] (paintInit []))
      = some none
  ∧ Option.map DashState.missingWebModule
      (applyEvent (Event.missingWebModule "b.js" (some { spec := "vue", pkgName := "vue" }))
        promptState)
      = some (some { id := "a.js", spec := "react", pkgName := "react" })
  ∧ Option.map DashState.missingWebModule
      (applyEvent (Event.missingWebModule "c.js" (some { spec := "svelte", pkgName := "svelte" }))
        (paintInit []))
      = some (some { id := "c.js", spec := "svelte", pkgName := "svelte" }) :=
  c5_missing_module_prompt (paintInit []) promptState "a.js" "b.js" "c.js"
    { spec := "react", pkgName := "react" } { spec := "vue", pkgName := "vue" }
    { spec := "svelte", pkgName := "svelte" }
    { id := "a.js", spec := "react", pkgName := "react" }
    (by decide) (by decide) (by decide) (by decide)

/-- Claim C2, evaluated at the failing input: worker `w` holds phase
("RUNNING","yellow") after its start event, yet a worker-update event whose
payload provides no phase overwrites the stored phase with the absent value
instead of leaving it unchanged, because the source guard
`typeof state !== undefined` compares a string against the value `undefined`
and therefore always passes. -/
theorem c2_worker_update_absent_phase_eval :
    Option.map (fun s => (lookupWorker s.allWorkerStates "w").map WorkerState.state)
      (processEvents [Event.workerStart "w" none] (paintInit ["w"]))
      = some (some (some ("RUNNING", "yellow")))
  ∧ Option.map (fun s => (lookupWorker s.allWorkerStates "w").map WorkerState.state)
      (processEvents [Event.workerStart "w" none, Event.workerUpdate "w" none] (paintInit ["w"]))
      = some (some none) := by
  decide

/-- Claim C3, evaluated at the failing input: a worker with non-empty output
and a set error field is rendered with the default (reset) header color, not
red, because `repaint` tests `Array.isArray(workerState.error)` on a field of
type `null | Error`, which is never an array. -/
theorem c3_worker_header_color_eval :
    workersSections [("w", { done := false, state := none, error := some "boom", output := "x" })]
      = [("w", ColorFn.reset)]
  ∧ ColorFn.reset ≠ ColorFn.red := by
  decide

/-- Counterexample to claim C1 as stated: a worker-complete event for a
never-before-seen id does not succeed; the handler reads a property of the
missing entry and faults, because the WORKER_COMPLETE handler, unlike
WORKER_START, WORKER_MSG and WORKER_UPDATE, never calls `setupWorker`. -/
theorem c1_complete_unseen_faults :
    processEvents [Event.workerComplete "build" none] (paintInit []) = none := by
  decide

/-- Claim C1 as amended: worker-start, worker-message and worker-update first
create the zero WorkerState for an unseen id and then apply their effect, so
those handlers never fault; worker-reset creates the slot by plain
assignment; worker-complete performs no initialization — on an unseen id it
faults, and on an existing id it succeeds, setting done and the
("DONE","green") phase. -/
theorem c1_worker_lazy_init_amended (s t : DashState) (id : String) (ph : Option Phase)
    (m : String) (er : Option String) (w : WorkerState)
    (habs : lookupWorker s.allWorkerStates id = none)
    (hpres : lookupWorker t.allWorkerStates id = some w) :
    workerAfter [Event.workerStart id ph] s id
      = some { WORKER_BASE_STATE with state := some (ph.getD ("RUNNING", "yellow")) }
  ∧ workerAfter [Event.workerMsg id m] s id
      = some { WORKER_BASE_STATE with output := WORKER_BASE_STATE.output ++ m }
  ∧ workerAfter [Event.workerUpdate id ph] s id
      = some { WORKER_BASE_STATE with state := ph }
  ∧ workerAfter [Event.workerReset id] s id = some WORKER_BASE_STATE
  ∧ processEvents [Event.workerComplete id er] s = none
  ∧ workerAfter [Event.workerComplete id er] t id
      = some { w with state := some ("DONE", "green"), done := true, error := jsOr w.error er } := by
  refine ⟨?_, ?_, ?_, ?_, ?_, ?_⟩
  · simp [workerAfter, processEvents, applyEvent, setupWorker, habs, modifyWorker,
      lookupWorker_setWorker, withWorkers]
  · simp [workerAfter, processEvents, applyEvent, setupWorker, habs, modifyWorker,
      lookupWorker_setWorker, withWorkers]
  · simp [workerAfter, processEvents, applyEvent, typeofStateNeUndefined, setupWorker,
      habs, modifyWorker, lookupWorker_setWorker, withWorkers]
  · simp [workerAfter, processEvents, applyEvent, lookupWorker_setWorker]
  · simp [processEvents, applyEvent, modifyWorker, habs, withWorkers]
  · simp [workerAfter, processEvents, applyEvent, modifyWorker, hpres, withWorkers,
      lookupWorker_setWorker]

/-- Witness for the amended C1, with `w` unseen in the empty initial state and
present in the one-script initial state. -/
theorem c1_worker_lazy_init_witness :
    workerAfter [Event.workerStart "w" (some ("P", "blue"))] (paintInit []) "w"
      = some { WORKER_BASE_STATE with state := some ((some (("P", "blue") : Phase)).getD ("RUNNING", "yellow")) }
  ∧ workerAfter [Event.workerMsg "w" "hi"] (paintInit []) "w"
      = some { WORKER_BASE_STATE with output := WORKER_BASE_STATE.output ++ "hi" }
  ∧ workerAfter [Event.workerUpdate "w" (some ("P", "blue"))] (paintInit []) "w"
      = some { WORKER_BASE_STATE with state := some ("P", "blue") }
  ∧ workerAfter [Event.workerReset "w"] (paintInit []) "w" = some WORKER_BASE_STATE
  ∧ processEvents [Event.workerComplete "w" (some "E")] (paintInit []) = none
  ∧ workerAfter [Event.workerComplete "w" (some "E")] (paintInit ["w"]) "w"
      = some { WORKER_BASE_STATE with
          state := some ("DONE", "green")
          done := true
          error := jsOr WORKER_BASE_STATE.error (some "E") } :=
  c1_worker_lazy_init_amended (paintInit []) (paintInit ["w"]) "w" (some ("P", "blue"))
    "hi" (some "E") WORKER_BASE_STATE (by decide) (by decide)

/-- Counterexample to claim C4 as stated: the name `build` already has an
entry in the workers mapping in the initial state built from the scripts
list, before any event referencing it has been processed. -/
theorem c4_scripts_eagerly_initialized :
    lookupWorker (paintInit ["build"]).allWorkerStates "build" = some WORKER_BASE_STATE := by
  decide

/-- Claim C4 as amended: apart from the names in the scripts list, which are
eagerly given the zero WorkerState when `paint` starts, no entry exists for a
name until the first event referencing it is processed; a successfully
handled event never removes an existing entry; and worker-reset replaces the
slot's value in place, preserving the mapping's key order, with the zero
WorkerState. -/
theorem c4_worker_slot_lifecycle_amended (scripts : List String) (name : String)
    (e1 e2 : Event) (s1 s2 u : DashState)
    (hns : name ∉ scripts)
    (h1 : applyEvent e1 s1 ≠ none) (h1p : lookupWorker s1.allWorkerStates name ≠ none)
    (h2 : applyEvent e2 s2 ≠ none) (h2r : refsWorker e2 ≠ some name)
    (h2a : lookupWorker s2.allWorkerStates name = none)
    (hup : lookupWorker u.allWorkerStates name ≠ none) :
    lookupWorker (paintInit scripts).allWorkerStates name = none
  ∧ workerAfter [e1] s1 name ≠ none
  ∧ workerAfter [e2] s2 name = none
  ∧ Option.map keysOf (processEvents [Event.workerReset name] u) = some (keysOf u)
  ∧ workerAfter [Event.workerReset name] u name = some WORKER_BASE_STATE := by
  refine ⟨lookupWorker_paintInit scripts name hns, ?_, ?_, ?_, ?_⟩
  · cases ha : applyEvent e1 s1 with
    | none => exact absurd ha h1
    | some s1x =>
        have hcase := lookupWorker_applyEvent e1 s1 s1x name ha
        have hwa : workerAfter [e1] s1 name = lookupWorker s1x.allWorkerStates name := by
          simp [workerAfter, processEvents, ha]
        rw [hwa]
        rcases hcase with heq | ⟨_, v, hv⟩
        · rw [heq]; exact h1p
        · rw [hv]; exact Option.some_ne_none v
  · cases ha : applyEvent e2 s2 with
    | none => exact absurd ha h2
    | some s2x =>
        have hcase := lookupWorker_applyEvent e2 s2 s2x name ha
        have hwa : workerAfter [e2] s2 name = lookupWorker s2x.allWorkerStates name := by
          simp [workerAfter, processEvents, ha]
        rw [hwa]
        rcases hcase with heq | ⟨hr, _, _⟩
        · rw [heq]; exact h2a
        · exact absurd hr h2r
  · have hset : processEvents [Event.workerReset name] u
        = some { u with allWorkerStates := setWorker u.allWorkerStates name WORKER_BASE_STATE } := by
      simp [processEvents, applyEvent]
    rw [hset]
    simp [keysOf, map_fst_setWorker u.allWorkerStates name WORKER_BASE_STATE hup]
  · simp [workerAfter, processEvents, applyEvent, lookupWorker_setWorker]

/-- Witness for the amended C4: `w` is absent from a foreign scripts list,
preserved by a message event, not created by a start event for another
worker, and reset in place in a two-worker state without reordering. -/
theorem c4_worker_slot_lifecycle_witness :
    lookupWorker (paintInit ["a"]).allWorkerStates "w" = none
  ∧ workerAfter [Event.workerMsg "w" "x"] (paintInit ["w"]) "w" ≠ none
  ∧ workerAfter [Event.workerStart "a" none] (paintInit ["a"]) "w" = none
  ∧ Option.map keysOf (processEvents [Event.workerReset "w"] dirtyState) = some (keysOf dirtyState)
  ∧ workerAfter [Event.workerReset "w"] dirtyState "w" = some WORKER_BASE_STATE :=
  c4_worker_slot_lifecycle_amended ["a"] "w" (Event.workerMsg "w" "x")
    (Event.workerStart "a" none) (paintInit ["w"]) (paintInit ["a"]) dirtyState
    (by decide) (by decide) (by decide) (by decide) (by decide) (by decide) (by decide)

/-- Claim C8: worker-complete only writes the error field when none is
stored. From an error-free worker, complete(E1) then complete(E2) leaves E1
stored; from a worker already holding E0, any further complete leaves E0. -/
theorem c8_first_error_wins (s t : DashState) (id : String) (w w2 : WorkerState)
    (e1v e2v e0 : String) (er : Option String)
    (hw : lookupWorker s.allWorkerStates id = some w) (hwe : w.error = none)
    (ht : lookupWorker t.allWorkerStates id = some w2) (hte : w2.error = some e0) :
    Option.map WorkerState.error
      (workerAfter [Event.workerComplete id (some e1v), Event.workerComplete id (some e2v)] s id)
      = some (some e1v)
  ∧ Option.map WorkerState.error (workerAfter [Event.workerComplete id er] t id)
      = some (some e0) := by
  constructor
  · simp [workerAfter, processEvents, applyEvent, modifyWorker, hw, withWorkers,
      lookupWorker_setWorker, jsOr, hwe]
  · simp [workerAfter, processEvents, applyEvent, modifyWorker, ht, withWorkers,
      lookupWorker_setWorker, jsOr, hte]

/-- Witness for C8: from the zero worker, E1 then E2 stores E1; from a worker
already holding E0, a further complete with E2 keeps E0. -/
theorem c8_first_error_wins_witness :
    Option.map WorkerState.error
      (workerAfter [Event.workerComplete "w" (some "E1"), Event.workerComplete "w" (some "E2")]
        (paintInit ["w"]) "w")
      = some (some "E1")
  ∧ Option.map WorkerState.error
      (workerAfter [Event.workerComplete "w" (some "E2")] errorWorkerState "w")
      = some (some "E0") :=
  c8_first_error_wins (paintInit ["w"]) errorWorkerState "w" WORKER_BASE_STATE
    { WORKER_BASE_STATE with error := some "E0" } "E1" "E2" "E0" (some "E2")
    (by decide) (by decide) (by decide) (by decide)

/-- Claim C10: over any sequence of worker events all referencing the same
existing worker, the worker's final output is exactly the concatenation, in
event order, of the worker-message texts since the most recent reset (or the
initial output followed by all texts when no reset occurs); and a
worker-reset always restores the zero WorkerState regardless of the
worker's prior values. -/
theorem c10_output_concat_since_reset (name : String) (es : List Event)
    (s u : DashState) (w : WorkerState)
    (hall : ∀ e ∈ es, refsWorker e = some name)
    (hw : lookupWorker s.allWorkerStates name = some w) :
    Option.map WorkerState.output (workerAfter es s name) = some (outputSpec w.output es)
  ∧ workerAfter [Event.workerReset name] u name = some WORKER_BASE_STATE := by
  refine ⟨c10_run es s w name hall hw, ?_⟩
  simp [workerAfter, processEvents, applyEvent, lookupWorker_setWorker]

/-- Witness for C10: a run with one message, a reset, and two further
messages yields the concatenation since the reset; and resetting a worker in
a thoroughly non-zero condition restores the zero state. -/
theorem c10_output_concat_since_reset_witness :
    Option.map WorkerState.output
      (workerAfter [Event.workerMsg "w" "a", Event.workerReset "w", Event.workerMsg "w" "b",
        Event.workerMsg "w" "c"] (paintInit ["w"]) "w")
      = some (outputSpec WORKER_BASE_STATE.output
          [Event.workerMsg "w" "a", Event.workerReset "w", Event.workerMsg "w" "b",
            Event.workerMsg "w" "c"])
  ∧ workerAfter [Event.workerReset "w"] dirtyResetState "w" = some WORKER_BASE_STATE :=
  c10_output_concat_since_reset "w"
    [Event.workerMsg "w" "a", Event.workerReset "w", Event.workerMsg "w" "b",
      Event.workerMsg "w" "c"]
    (paintInit ["w"]) dirtyResetState WORKER_BASE_STATE (by decide) (by decide)
